import Mathlib

/-!
Verification development for the aistudio auto-labeling pipeline.

The Python sources are shallowly embedded over `List Char` (text) and
`List Row` (the pandas DataFrame restricted to the three columns the
pipeline reads and writes).  Pandas `NaN` cells are modelled as `none`,
string cells as `some chars`.

Embedded modules:
 * `src/src/core_logic/validation.py`   (`parse_and_validate`)
 * `src/src/core_logic/data_handler.py` (`DataHandler`)
 * `src/src/core_logic/failed_row_handler.py` (`FailedRowHandler`)
 * `src/src/main.py`                    (`main`, the batch orchestrator)
-/

namespace Labeling

/-! ## Python string primitives -/

/-- Python whitespace characters, the set used by `str.strip` and `\s`. -/
def pyIsSpace (c : Char) : Bool :=
  c = ' ' || c = '\t' || c = '\n' || c = '\r' || c = '\x0b' || c = '\x0c'

/-- Python `str.strip()`: drop whitespace from both ends. -/
def pyStrip (l : List Char) : List Char :=
  ((l.dropWhile pyIsSpace).reverse.dropWhile pyIsSpace).reverse

/-- Python `str.upper()` on ASCII text. -/
def pyUpper (l : List Char) : List Char :=
  l.map Char.toUpper

/-- Python `str.split('\n')`: `""` yields `[""]`, separators are consumed. -/
def splitNl : List Char → List (List Char)
  | [] => [[]]
  | c :: cs =>
    if c = '\n' then [] :: splitNl cs
    else
      match splitNl cs with
      | [] => [[c]]
      | t :: ts => (c :: t) :: ts

/-- Python `str.split(sep, 1)` when the separator occurs: text before the
first occurrence of `sep` and the text after it; `none` when `sep` does not
occur. -/
def splitOnce (sep : List Char) : List Char → Option (List Char × List Char)
  | [] => none
  | c :: cs =>
    if sep.isPrefixOf (c :: cs) then some ([], (c :: cs).drop sep.length)
    else (splitOnce sep cs).map fun p => (c :: p.1, p.2)

/-! ## validation.py -/

/-- One structured result row returned by `parse_and_validate`:
the dict `{"label": ..., "justification": ...}`. -/
structure LabeledRow where
  label : List Char
  justification : List Char
deriving DecidableEq, Repr

/-- Rejection reasons of `parse_and_validate`, tagging the three error
message strings of the source. -/
inductive RejectReason where
  /-- `"Validasi Gagal: Tidak ada respons yang diterima dari model."` -/
  | noResponse
  /-- `"Validasi Gagal: Tidak ada label yang diizinkan ..."` -/
  | noLabels
  /-- `"Validasi Gagal: Setelah pembersihan, jumlah hasil valid (got)
  tidak sesuai dengan input (expected)."` -/
  | countMismatch (got : Nat) (expected : Nat)
deriving DecidableEq, Repr

/-- The `Tuple[bool, List[Dict] | str]` return value of `parse_and_validate`. -/
inductive ValidationResult where
  | Accepted (rows : List LabeledRow)
  | Rejected (reason : RejectReason)
deriving DecidableEq, Repr

/-- The dynamically built regex `^(L1|...|Ln)\s*-\s*.+` compiled with
`re.IGNORECASE` (validation.py lines 38-39), applied via `re.match`
(prefix match).  `allowedU` holds the uppercased labels; a line matches iff
some label is a case-insensitive prefix, followed by optional whitespace,
a dash, and at least one further character (`.` never matches a newline). -/
def matchesRegex (allowedU : List (List Char)) (line : List Char) : Bool :=
  allowedU.any fun lab =>
    lab.isPrefixOf (pyUpper line) &&
    match (line.drop lab.length).dropWhile pyIsSpace with
    | c :: r2 => c = '-' && r2.any fun d => d ≠ '\n'
    | [] => false

/-- Processing of one (already stripped) line inside the first loop of
`parse_and_validate` (lines 60-74): regex gate, then `line.split(' - ', 1)`,
uppercase the part before the separator and re-check membership; the
`IndexError` branch (no `' - '` in the line) and an unknown label both skip
the line. -/
def lineParse (allowedU : List (List Char)) (line : List Char) :
    Option (List Char × List Char) :=
  if matchesRegex allowedU line then
    match splitOnce (' ' :: '-' :: ' ' :: []) line with
    | some (pre, rest) =>
      let lab := pyUpper (pyStrip pre)
      if lab ∈ allowedU then some (lab, pyStrip rest) else none
    | none => none
  else none

/-- The first loop of `parse_and_validate` (lines 41-76): scan the lines,
strip each, collect parsed `(label, justification)` pairs, and break as soon
as `expected_count` pairs have been collected. -/
def collectParsed (allowedU : List (List Char)) :
    Nat → List (List Char) → List (List Char × List Char)
  | _, [] => []
  | 0, _ :: _ => []
  | n + 1, ln :: rest =>
    match lineParse allowedU (pyStrip ln) with
    | some c => c :: collectParsed allowedU n rest
    | none => collectParsed allowedU (n + 1) rest

/-- The cleanup filter of `parse_and_validate` (lines 85-97): non-empty
label and justification, label still allowed, justification at least three
characters after stripping. -/
def passChecks (allowedU : List (List Char)) (c : List Char × List Char) : Bool :=
  !c.1.isEmpty && !c.2.isEmpty &&
    decide (pyUpper c.1 ∈ allowedU) && decide (3 ≤ (pyStrip c.2).length)

/-- The cleanup loop of `parse_and_validate` (lines 82-104): keep candidates
passing `passChecks` and break right after the kept list reaches
`expected_count` (the length test runs after each append, so with
`expected = 0` a single passing candidate would still be kept). -/
def cleanupLoop (allowedU : List (List Char)) :
    Nat → List (List Char × List Char) → List (List Char × List Char)
  | _, [] => []
  | expected, c :: cs =>
    if passChecks allowedU c then
      if expected ≤ 1 then [c]
      else c :: cleanupLoop allowedU (expected - 1) cs
    else cleanupLoop allowedU expected cs

/-- `parse_and_validate(raw_response, expected_count, allowed_labels)`
(validation.py).  `raw = none` models Python `None`; the `if not
raw_response` guard also catches the empty string. -/
def parse_and_validate (raw : Option (List Char)) (expected : Nat)
    (allowed : List (List Char)) : ValidationResult :=
  match raw with
  | none => .Rejected .noResponse
  | some r =>
    if r.isEmpty then .Rejected .noResponse
    else if allowed.isEmpty then .Rejected .noLabels
    else
      let allowedU := allowed.map pyUpper
      let parsed := collectParsed allowedU expected (splitNl (pyStrip r))
      let cleaned := cleanupLoop allowedU expected parsed
      if cleaned.length = expected then
        .Accepted (cleaned.map fun c => ⟨c.1, c.2⟩)
      else
        .Rejected (.countMismatch cleaned.length expected)

/-- The boolean `is_valid = False` component of the return value. -/
def ValidationResult.isRejected : ValidationResult → Bool
  | .Accepted _ => false
  | .Rejected _ => true

/-- All candidates the first loop could ever produce from `raw`, without the
early break: strip each line and parse it. -/
def parsedCandidates (raw : List Char) (allowed : List (List Char)) :
    List (List Char × List Char) :=
  (splitNl (pyStrip raw)).filterMap fun ln =>
    lineParse (allowed.map pyUpper) (pyStrip ln)

/-- The list surviving the cleanup pass for a non-null response. -/
def cleanedResults (raw : List Char) (expected : Nat)
    (allowed : List (List Char)) : List (List Char × List Char) :=
  cleanupLoop (allowed.map pyUpper) expected
    (collectParsed (allowed.map pyUpper) expected (splitNl (pyStrip raw)))

/-! ## data_handler.py (core_logic)

The DataFrame is modelled as a `List Row`; only the three columns the
pipeline touches are represented (additional columns are never read).
`save_progress` / `save_final_results` rewrite the whole in-memory frame,
so persistence is modelled by the frame value itself. -/

/-- One dataset row.  `none` models a pandas `NaN` cell. -/
structure Row where
  full_text : List Char
  label : Option (List Char)
  justification : Option (List Char)
deriving DecidableEq, Repr

/-- `DataHandler.get_unprocessed_data_count` (lines 134-141):
`self.df['label'].isnull().sum()` — only a null label counts. -/
def get_unprocessed_data_count (df : List Row) : Nat :=
  (df.filter fun r => r.label.isNone).length

/-- Chunking `[texts[i:i+batch_size] for i in range(0, len(texts), batch_size)]`.
(`range` with step `0` raises in Python; `batch_size = 0` returns `[]` here
and every theorem about batching assumes `0 < batch_size`.) -/
def chunkedFuel (bs : Nat) : Nat → List α → List (List α)
  | _, [] => []
  | 0, _ :: _ => []
  | fuel + 1, x :: xs => (x :: xs).take bs :: chunkedFuel bs fuel ((x :: xs).drop bs)

/-- `chunked bs l` with `0 < bs` splits `l` into consecutive chunks of size
`bs` (last chunk possibly shorter); the fuel `l.length` suffices because
each step consumes at least one element. -/
def chunked (bs : Nat) (l : List α) : List (List α) :=
  match bs with
  | 0 => []
  | b + 1 => chunkedFuel (b + 1) l.length l

/-- `DataHandler.get_data_batches` (lines 71-88): the `full_text` of rows
whose `label` is null, in frame order, chunked by `batch_size`. -/
def get_data_batches (batch_size : Nat) (df : List Row) : List (List (List Char)) :=
  chunked batch_size ((df.filter fun r => r.label.isNone).map fun r => r.full_text)

/-- Positions (frame indices) of the rows with a null label:
`self.df[self.df['label'].isnull()].index`. -/
def unprocessedIndices (df : List Row) : List Nat :=
  (df.enum.filter fun p => p.2.label.isNone).map fun p => p.1

/-- `df.loc[i, 'label'] = ...; df.loc[i, 'justification'] = ...` at one
frame position. -/
def modifyAt (i : Nat) (f : α → α) : List α → List α
  | [] => []
  | x :: xs =>
    match i with
    | 0 => f x :: xs
    | j + 1 => x :: modifyAt j f xs

/-- Write one validated result into the row at frame position `p.2`. -/
def applyOne (df : List Row) (p : LabeledRow × Nat) : List Row :=
  modifyAt p.2
    (fun r => { r with label := some p.1.label, justification := some p.1.justification }) df

/-- `DataHandler.update_and_save_data(results, start_index)` (lines 90-110):
slice `start_index : start_index + len(results)` of the current null-label
positions, write each result into its slice partner (results beyond the
slice are dropped by the `i < len(indices_to_update)` guard), then persist. -/
def update_and_save_data (results : List LabeledRow) (start_index : Nat)
    (df : List Row) : List Row :=
  let idxs := ((unprocessedIndices df).drop start_index).take results.length
  (results.zip idxs).foldl applyOne df

/-! ## failed_row_handler.py and main.py -/

/-- One entry of `FailedRowHandler.failed_rows` (`add_failed_row`,
lines 22-38). -/
structure FailedRow where
  full_text : List Char
  invalid_label : List Char
  justification : List Char
  failure_reason : List Char
deriving DecidableEq, Repr

/-- `MAX_RETRIES = 3` (main.py line 139). -/
def MAX_RETRIES : Nat := 3

/-- The reason string recorded by main.py line 187 for `MAX_RETRIES = 3`. -/
def failMsg : List Char := "Failed validation after 3 attempts.".data

/-- The ledger entry main.py lines 184-188 builds for a batch text. -/
def mkFailedRow (t : List Char) : FailedRow :=
  ⟨t, "N/A".data, "N/A".data, failMsg⟩

/-- The mutable state of `main`'s batch loop.  `written` is ghost
instrumentation counting the rows `update_and_save_data` actually modified;
it affects nothing else and exists to state conservation properties. -/
structure RunState where
  df : List Row
  total_processed_rows : Nat
  total_failed_rows : Nat
  ledger : List FailedRow
  written : Nat
deriving DecidableEq, Repr

/-- The retry loop of main.py lines 141-166: try each raw response in turn
and keep the first validated result; `none` when every attempt is rejected. -/
def firstValid (attempts : List (Option (List Char))) (expected : Nat)
    (allowed : List (List Char)) : Option (List LabeledRow) :=
  match attempts with
  | [] => none
  | a :: rest =>
    match parse_and_validate a expected allowed with
    | .Accepted rows => some rows
    | .Rejected _ => firstValid rest expected allowed

/-- Number of rows an `update_and_save_data` call actually writes. -/
def writeCount (results : List LabeledRow) (start_index : Nat)
    (df : List Row) : Nat :=
  (results.zip (((unprocessedIndices df).drop start_index).take results.length)).length

/-- Handling of one batch (main.py lines 136-197): up to `MAX_RETRIES`
attempts; on success `update_and_save_data(validated_results,
start_index=total_processed_rows)` and advance the counter, otherwise record
every batch text in the failed-row ledger. -/
def processBatch (allowed : List (List Char)) (attempts : List (Option (List Char)))
    (batch : List (List Char)) (st : RunState) : RunState :=
  match firstValid (attempts.take MAX_RETRIES) batch.length allowed with
  | some rows =>
    { st with
      df := update_and_save_data rows st.total_processed_rows st.df
      total_processed_rows := st.total_processed_rows + rows.length
      written := st.written + writeCount rows st.total_processed_rows st.df }
  | none =>
    { st with
      total_failed_rows := st.total_failed_rows + batch.length
      ledger := st.ledger ++ batch.map mkFailedRow }

/-- The batch loop of main.py: fold `processBatch` over the batches, feeding
batch `i` the raw responses `resp i` (the oracle modelling what
`browser.get_raw_response_for_batch` returns on each attempt). -/
def runBatches (allowed : List (List Char)) (resp : Nat → List (Option (List Char))) :
    List (List (List Char)) → Nat → RunState → RunState
  | [], _, st => st
  | b :: bs, i, st => runBatches allowed resp bs (i + 1) (processBatch allowed (resp i) b st)

/-- Initial loop state (main.py lines 85-87). -/
def initState (df : List Row) : RunState :=
  ⟨df, 0, 0, [], 0⟩

/-- A full uninterrupted run of the batch loop: batches are computed once
from the initial frame (main.py line 129) and processed in order. -/
def runMain (df0 : List Row) (batch_size : Nat) (allowed : List (List Char))
    (resp : Nat → List (Option (List Char))) : RunState :=
  runBatches allowed resp (get_data_batches batch_size df0) 0 (initState df0)

/-! ### Finalization (main.py `finally`, lines 212-231)

Observable cleanup steps are modelled as an event trace.  An external
interrupt is modelled at batch granularity: `interrupt = some k` raises
`KeyboardInterrupt` once `k` batches have been handled.  The `finally`
block always runs; `browser.close_session()` and
`failed_handler.save_to_file()` are guarded only by handler construction
(assumed to succeed here), while `data_handler.save_final_results()` runs
only when `total_processed_rows > 0`. -/

/-- Observable actions of a run. -/
inductive Event where
  | batchApplied
  | batchFailed
  | closeSession
  | ledgerFlush
  | finalSave
deriving DecidableEq, Repr

/-- Events emitted by the batch loop: one per batch, by outcome. -/
def loopEvents (allowed : List (List Char)) (resp : Nat → List (Option (List Char))) :
    List (List (List Char)) → Nat → List Event
  | [], _ => []
  | b :: bs, i =>
    (if (firstValid ((resp i).take MAX_RETRIES) b.length allowed).isSome then
      Event.batchApplied else Event.batchFailed) ::
      loopEvents allowed resp bs (i + 1)

/-- The batches actually handled before the run leaves the loop. -/
def executedBatches (df0 : List Row) (batch_size : Nat)
    (interrupt : Option Nat) : List (List (List Char)) :=
  match interrupt with
  | none => get_data_batches batch_size df0
  | some k => (get_data_batches batch_size df0).take k

/-- Loop state at the moment the run reaches the `finally` block. -/
def stateAtExit (df0 : List Row) (batch_size : Nat) (allowed : List (List Char))
    (resp : Nat → List (Option (List Char))) (interrupt : Option Nat) : RunState :=
  runBatches allowed resp (executedBatches df0 batch_size interrupt) 0 (initState df0)

/-- Full event trace of a run, interrupt point included: the loop's events
followed by the `finally` block's cleanup steps in source order. -/
def mainTrace (df0 : List Row) (batch_size : Nat) (allowed : List (List Char))
    (resp : Nat → List (Option (List Char))) (interrupt : Option Nat) : List Event :=
  loopEvents allowed resp (executedBatches df0 batch_size interrupt) 0 ++
    Event.closeSession :: Event.ledgerFlush ::
      (if 0 < (stateAtExit df0 batch_size allowed resp interrupt).total_processed_rows then
        [Event.finalSave] else [])

/-! ## Concrete fixtures -/

/-- A dataset of four fully unprocessed rows. -/
def df4 : List Row :=
  [⟨"t0".data, none, none⟩, ⟨"t1".data, none, none⟩,
   ⟨"t2".data, none, none⟩, ⟨"t3".data, none, none⟩]

/-- A dataset of two fully unprocessed rows. -/
def df2 : List Row :=
  [⟨"t0".data, none, none⟩, ⟨"t1".data, none, none⟩]

/-- A raw response that validates for a batch of two rows. -/
def goodResp : Option (List Char) :=
  some "POSITIF - alpha\nPOSITIF - bravo".data

/-- A raw response no attempt can validate. -/
def badResp : Option (List Char) :=
  some "garbage".data

/-- Response oracle: every attempt on the first batch is malformed, later
batches validate immediately. -/
def respMixed (i : Nat) : List (Option (List Char)) :=
  if i = 0 then [badResp, badResp, badResp] else [goodResp]

/-! ## Helper lemmas about the validator -/

theorem collectParsed_eq_take (aU : List (List Char)) :
    ∀ (n : Nat) (lines : List (List Char)),
      collectParsed aU n lines =
        (lines.filterMap fun ln => lineParse aU (pyStrip ln)).take n
  | _, [] => by cases ‹Nat› <;> rfl
  | 0, _ :: _ => by simp [collectParsed]
  | n + 1, ln :: rest => by
    rw [collectParsed, List.filterMap_cons]
    cases h : lineParse aU (pyStrip ln) with
    | none => exact collectParsed_eq_take aU (n + 1) rest
    | some c => rw [List.take_succ_cons, collectParsed_eq_take aU n rest]

theorem cleanupLoop_eq_take (aU : List (List Char)) :
    ∀ (n : Nat) (l : List (List Char × List Char)), 1 ≤ n →
      cleanupLoop aU n l = (l.filter (passChecks aU)).take n
  | _, [], _ => by simp [cleanupLoop]
  | n, c :: cs, hn => by
    rw [cleanupLoop, List.filter_cons]
    cases hp : passChecks aU c with
    | false => simpa using cleanupLoop_eq_take aU n cs hn
    | true =>
      simp only [if_true]
      match n, hn with
      | 1, _ => simp
      | n + 2, _ =>
        have := cleanupLoop_eq_take aU (n + 1) cs (by omega)
        simp only [if_neg (by omega : ¬ n + 2 ≤ 1)]
        rw [show n + 2 - 1 = n + 1 from rfl, this, List.take_succ_cons]

theorem collectParsed_zero (aU : List (List Char)) (lines : List (List Char)) :
    collectParsed aU 0 lines = [] := by
  cases lines <;> rfl

/-- `parse_and_validate` on a non-null, non-empty response with a non-empty
label list reduces to the final count gate over `cleanedResults`. -/
theorem validate_eq_gate (raw : List Char) (expected : Nat)
    (allowed : List (List Char)) (hraw : raw ≠ []) (hlab : allowed ≠ []) :
    parse_and_validate (some raw) expected allowed =
      if (cleanedResults raw expected allowed).length = expected then
        .Accepted ((cleanedResults raw expected allowed).map fun c => ⟨c.1, c.2⟩)
      else
        .Rejected (.countMismatch (cleanedResults raw expected allowed).length expected) := by
  have h1 : raw.isEmpty = false := by
    cases raw with
    | nil => exact absurd rfl hraw
    | cons a l => rfl
  have h2 : allowed.isEmpty = false := by
    cases allowed with
    | nil => exact absurd rfl hlab
    | cons a l => rfl
  simp only [parse_and_validate, h1, h2, Bool.false_eq_true, if_false, cleanedResults]

/-- The cleaned list never has more elements than the passing candidates. -/
theorem cleanedResults_length_le (raw : List Char) (expected : Nat)
    (allowed : List (List Char)) :
    (cleanedResults raw expected allowed).length ≤
      ((parsedCandidates raw allowed).filter
        (passChecks (allowed.map pyUpper))).length := by
  rw [cleanedResults, collectParsed_eq_take]
  cases expected with
  | zero => simp [cleanupLoop]
  | succ n =>
    rw [cleanupLoop_eq_take _ _ _ (by omega)]
    refine List.Sublist.length_le ?_
    exact (List.take_sublist _ _).trans ((List.take_sublist _ _).filter _)

/-! ## Claim theorems -/

/-- **C4.**  For every non-empty `rawText` and non-empty `allowedLabels`,
`parse_and_validate` returns `Accepted rows` (with `rows.length =
expectedCount`) iff the candidates surviving the cleanup pass number exactly
`expectedCount`, and otherwise returns `Rejected` with the count-mismatch
reason; in particular an input with fewer cleanup-passing candidate lines
than `expectedCount` is rejected. -/
theorem C4_exact_count_gate (raw : List Char) (expected : Nat)
    (allowed : List (List Char)) (hraw : raw ≠ []) (hlab : allowed ≠ []) :
    ((∃ rows, parse_and_validate (some raw) expected allowed = .Accepted rows ∧
        rows.length = expected) ↔
      (cleanedResults raw expected allowed).length = expected) ∧
    ((cleanedResults raw expected allowed).length ≠ expected →
      parse_and_validate (some raw) expected allowed =
        .Rejected (.countMismatch (cleanedResults raw expected allowed).length expected)) ∧
    (((parsedCandidates raw allowed).filter
        (passChecks (allowed.map pyUpper))).length < expected →
      parse_and_validate (some raw) expected allowed =
        .Rejected (.countMismatch (cleanedResults raw expected allowed).length expected)) := by
  have hg := validate_eq_gate raw expected allowed hraw hlab
  refine ⟨⟨fun ⟨rows, hacc, hlen⟩ => ?_, fun h => ?_⟩, fun h => ?_, fun h => ?_⟩
  · by_contra hne
    rw [hg, if_neg hne] at hacc
    exact ValidationResult.noConfusion hacc
  · exact ⟨_, by rw [hg, if_pos h], by simpa using h⟩
  · rw [hg, if_neg h]
  · have hle := cleanedResults_length_le raw expected allowed
    rw [hg, if_neg (by omega)]

/-- Witness for C4 at a concrete input: one well-formed line against
`expectedCount = 2` is rejected with the count-mismatch reason. -/
theorem C4_witness :
    parse_and_validate (some "POSITIF - oke".data) 2 ["POSITIF".data] =
      .Rejected (.countMismatch 1 2) := by
  have h := (C4_exact_count_gate "POSITIF - oke".data 2 ["POSITIF".data]
    (by decide) (by decide)).2.1 (by decide)
  rw [h]; decide

/-- **C9.**  With `expectedCount = 0`, a non-null non-empty response and a
non-empty label list are `Accepted` with an empty row list, while a null or
empty response is still rejected with the no-response reason. -/
theorem C9_zero_expected (raw : List Char) (allowed : List (List Char))
    (hraw : raw ≠ []) (hlab : allowed ≠ []) :
    parse_and_validate (some raw) 0 allowed = .Accepted [] ∧
    parse_and_validate none 0 allowed = .Rejected .noResponse ∧
    parse_and_validate (some []) 0 allowed = .Rejected .noResponse := by
  refine ⟨?_, rfl, rfl⟩
  have hg := validate_eq_gate raw 0 allowed hraw hlab
  have hc : cleanedResults raw 0 allowed = [] := by
    rw [cleanedResults, collectParsed_zero]; rfl
  rw [hg, hc]; rfl

/-- Witness for C9 at a concrete input. -/
theorem C9_witness :
    parse_and_validate (some "whatever".data) 0 ["POSITIF".data] = .Accepted [] ∧
    parse_and_validate none 0 ["POSITIF".data] = .Rejected .noResponse ∧
    parse_and_validate (some []) 0 ["POSITIF".data] = .Rejected .noResponse :=
  C9_zero_expected "whatever".data ["POSITIF".data] (by decide) (by decide)

/-- **C5 counterexample.**  The input has two cleanup-passing (well-formed)
lines — at least `expectedCount = 2` of them — yet `parse_and_validate`
rejects it: scanning stops after the first two *parseable* lines, and the
first of those (`"POSITIF - ab"`, justification shorter than three
characters) is then discarded by the cleanup pass, so only one result
survives.  The claim says this input is `Accepted` using the first two
well-formed lines. -/
theorem C5_counterexample :
    ((parsedCandidates "POSITIF - ab\nPOSITIF - alpha\nPOSITIF - bravo".data
        ["POSITIF".data]).filter
        (passChecks (["POSITIF".data].map pyUpper))).length = 2 ∧
    parse_and_validate
        (some "POSITIF - ab\nPOSITIF - alpha\nPOSITIF - bravo".data) 2
        ["POSITIF".data] =
      .Rejected (.countMismatch 1 2) := by
  exact ⟨by decide, by decide⟩

/-- **C5 (amended).**  Scanning stops once `expectedCount` *parseable* lines
(label-dash pattern with a known label) have been collected, so later lines
never affect the result; if each of those first `expectedCount` parsed
candidates also passes the cleanup checks (justification of at least three
characters), the response is `Accepted` using exactly those candidates in
input order. -/
theorem C5_overgeneration (raw : List Char) (expected : Nat)
    (allowed : List (List Char)) (hraw : raw ≠ []) (hlab : allowed ≠ [])
    (hlen : expected ≤ (parsedCandidates raw allowed).length)
    (hpass : ∀ c ∈ (parsedCandidates raw allowed).take expected,
      passChecks (allowed.map pyUpper) c = true) :
    parse_and_validate (some raw) expected allowed =
      .Accepted (((parsedCandidates raw allowed).take expected).map
        fun c => ⟨c.1, c.2⟩) := by
  have hg := validate_eq_gate raw expected allowed hraw hlab
  have hparsed : collectParsed (allowed.map pyUpper) expected
      (splitNl (pyStrip raw)) = (parsedCandidates raw allowed).take expected := by
    rw [collectParsed_eq_take]; rfl
  have hfl : ((parsedCandidates raw allowed).take expected).filter
      (passChecks (allowed.map pyUpper)) = (parsedCandidates raw allowed).take expected :=
    List.filter_eq_self.mpr hpass
  have hlen2 : ((parsedCandidates raw allowed).take expected).length = expected := by
    rw [List.length_take]; omega
  have hc : cleanedResults raw expected allowed =
      (parsedCandidates raw allowed).take expected := by
    rw [cleanedResults, hparsed]
    cases expected with
    | zero => rfl
    | succ n =>
      rw [cleanupLoop_eq_take _ _ _ (by omega), hfl, List.take_of_length_le (by omega)]
  rw [hg, hc, if_pos hlen2]

/-- Witness for C5 (amended): five lines, three of them parseable and
passing, `expectedCount = 2` — accepted using only the first two. -/
theorem C5_witness :
    parse_and_validate
        (some "POSITIF - alpha\nNEGATIF - bravo\ngarbage\nPOSITIF - charlie".data) 2
        ["POSITIF".data, "NEGATIF".data] =
      .Accepted [⟨"POSITIF".data, "alpha".data⟩, ⟨"NEGATIF".data, "bravo".data⟩] := by
  have h := C5_overgeneration
    "POSITIF - alpha\nNEGATIF - bravo\ngarbage\nPOSITIF - charlie".data 2
    ["POSITIF".data, "NEGATIF".data] (by decide) (by decide) (by decide)
    (by decide)
  rw [h]; decide

/-! ## Line-grammar lemmas (C6) -/

theorem isPrefixOf_append_self : ∀ (l₁ l₂ : List Char), l₁.isPrefixOf (l₁ ++ l₂) = true
  | [], l₂ => by cases l₂ <;> rfl
  | a :: as, l₂ => by simp [List.isPrefixOf, isPrefixOf_append_self as l₂]

/-- A stripped line `<label> - <rest>` matches the dynamically built regex
whenever the text before the separator uppercases to an allowed label. -/
theorem matchesRegex_append (aU : List (List Char)) (pre rest : List Char)
    (hmem : pyUpper pre ∈ aU) :
    matchesRegex aU (pre ++ ' ' :: '-' :: ' ' :: rest) = true := by
  rw [matchesRegex, List.any_eq_true]
  refine ⟨pyUpper pre, hmem, ?_⟩
  have hup : pyUpper (pre ++ ' ' :: '-' :: ' ' :: rest) =
      pyUpper pre ++ ' ' :: '-' :: ' ' :: pyUpper rest := by
    simp [pyUpper]
  have hlen : (pyUpper pre).length = pre.length := by simp [pyUpper]
  rw [hup, isPrefixOf_append_self, hlen, List.drop_left]
  simp [pyIsSpace, List.dropWhile_cons]

/-- If the label part contains no dash, `line.split(' - ', 1)` cuts exactly
at the separator written after it. -/
theorem splitOnce_at_boundary (pre rest : List Char) (hdash : '-' ∉ pre) :
    splitOnce (' ' :: '-' :: ' ' :: []) (pre ++ ' ' :: '-' :: ' ' :: rest) =
      some (pre, rest) := by
  induction pre with
  | nil => simp [splitOnce, List.isPrefixOf]
  | cons c cs ih =>
    rw [List.cons_append, splitOnce]
    have hnp : (' ' :: '-' :: ' ' :: []).isPrefixOf
        (c :: (cs ++ ' ' :: '-' :: ' ' :: rest)) = false := by
      cases cs with
      | nil => simp [List.isPrefixOf]
      | cons d ds =>
        have hd : ('-' == d) = false := by
          have : d ≠ '-' := fun h => hdash (by simp [h])
          simp [beq_eq_false_iff_ne]
          exact fun h => this h.symm
        simp [List.isPrefixOf, hd]
    rw [hnp, if_neg (by simp), ih fun h => hdash (List.mem_cons_of_mem c h)]
    rfl

/-- **C6 counterexample.**  `"POSITIF-oke"` matches the validator's regex
(the pattern allows no whitespace around the dash) but yields *no* parsed
candidate, because the subsequent `split(' - ', 1)` finds no literal
`" - "` separator — so `validate("POSITIF-oke", 1, {POSITIF})` is rejected,
where the claim promises a candidate for any amount of whitespace around
the dash, including none.  The claim's own example also fails:
`validate("positif - ok", 1, {POSITIF})` is rejected because the
justification `"ok"` is shorter than the three characters the cleanup pass
requires. -/
theorem C6_counterexample :
    matchesRegex ["POSITIF".data] "POSITIF-oke".data = true ∧
    lineParse ["POSITIF".data] "POSITIF-oke".data = none ∧
    parse_and_validate (some "POSITIF-oke".data) 1 ["POSITIF".data] =
      .Rejected (.countMismatch 0 1) ∧
    parse_and_validate (some "positif - ok".data) 1 ["POSITIF".data] =
      .Rejected (.countMismatch 0 1) := by
  exact ⟨by decide, by decide, by decide, by decide⟩

/-- **C6 (amended).**  A line of the shape `<label> - <rest>` — with the
literal space-dash-space separator — whose prefix is trimmed, dash-free and
uppercases to an allowed label, yields exactly the candidate
`(uppercased label, trimmed remainder)`.  (Lines whose dash is missing a
space on either side yield no candidate, and a candidate only survives into
an accepted batch if its justification has at least three characters.) -/
theorem C6_line_grammar (pre rest : List Char) (allowed : List (List Char))
    (hstrip : pyStrip pre = pre) (hdash : '-' ∉ pre)
    (hmem : pyUpper pre ∈ allowed.map pyUpper) :
    lineParse (allowed.map pyUpper) (pre ++ ' ' :: '-' :: ' ' :: rest) =
      some (pyUpper pre, pyStrip rest) := by
  have h1 := matchesRegex_append (allowed.map pyUpper) pre rest hmem
  have h2 := splitOnce_at_boundary pre rest hdash
  rw [lineParse, h1]
  simp only [if_true]
  rw [h2]
  simp only [hstrip]
  rw [if_pos hmem]

/-- Witness for C6 (amended): the lowercase line `"positif - oke"` parses to
the uppercased candidate `(POSITIF, oke)`. -/
theorem C6_witness :
    lineParse (["POSITIF".data].map pyUpper)
        ("positif".data ++ ' ' :: '-' :: ' ' :: "oke".data) =
      some (pyUpper "positif".data, pyStrip "oke".data) :=
  C6_line_grammar "positif".data "oke".data ["POSITIF".data]
    (by decide) (by decide) (by decide)

/-! ## Batching and indexing lemmas -/

theorem chunkedFuel_join (bs : Nat) (hbs : 1 ≤ bs) :
    ∀ (fuel : Nat) (l : List α), l.length ≤ fuel → (chunkedFuel bs fuel l).flatten = l
  | fuel, [], _ => by cases fuel <;> rfl
  | 0, x :: xs, h => by simp at h
  | fuel + 1, x :: xs, h => by
    rw [chunkedFuel, List.flatten_cons,
      chunkedFuel_join bs hbs fuel ((x :: xs).drop bs)
        (by simp only [List.length_drop]; simp at h ⊢; omega),
      List.take_append_drop]

theorem chunked_join (bs : Nat) (hbs : 0 < bs) (l : List α) :
    (chunked bs l).flatten = l := by
  match bs, hbs with
  | b + 1, _ => exact chunkedFuel_join (b + 1) (by omega) l.length l (Nat.le_refl _)

theorem countP_enumFrom (q : α → Bool) :
    ∀ (n : Nat) (l : List α), ((List.enumFrom n l).countP fun p => q p.2) = l.countP q
  | _, [] => rfl
  | n, x :: xs => by
    simp [List.enumFrom, List.countP_cons, countP_enumFrom q (n + 1) xs]

theorem unprocessedIndices_length (df : List Row) :
    (unprocessedIndices df).length = get_unprocessed_data_count df := by
  rw [unprocessedIndices, List.length_map, ← List.countP_eq_length_filter,
    get_unprocessed_data_count, ← List.countP_eq_length_filter, List.enum]
  exact countP_enumFrom (fun r => r.label.isNone) 0 df

theorem mem_enumFrom_get? :
    ∀ (l : List α) (n i : Nat) (x : α), (i, x) ∈ l.enumFrom n →
      ∃ j, i = n + j ∧ l.get? j = some x
  | [], _, _, _, h => absurd h (List.not_mem_nil _)
  | y :: ys, n, i, x, h => by
    rw [List.enumFrom] at h
    rcases List.mem_cons.mp h with h | h
    · exact ⟨0, by simp [Prod.ext_iff] at h; simp [h]⟩
    · obtain ⟨j, hj, hg⟩ := mem_enumFrom_get? ys (n + 1) i x h
      exact ⟨j + 1, by omega, hg⟩

/-- Members of `unprocessedIndices df` point at rows with a null label. -/
theorem mem_unprocessedIndices (df : List Row) (i : Nat)
    (h : i ∈ unprocessedIndices df) :
    ∃ r, df.get? i = some r ∧ r.label = none := by
  rw [unprocessedIndices] at h
  obtain ⟨⟨i', r⟩, hmem, hi⟩ := List.mem_map.mp h
  rcases List.mem_filter.mp hmem with ⟨henum, hnone⟩
  obtain ⟨j, hj, hg⟩ := mem_enumFrom_get? df 0 i' r henum
  cases hi
  exact ⟨r, by rwa [show i' = j by omega], Option.isNone_iff_eq_none.mp hnone⟩

theorem unprocessedIndices_pairwise (df : List Row) :
    (unprocessedIndices df).Pairwise (· < ·) := by
  have hsub : (unprocessedIndices df).Sublist ((df.enum.map fun p => p.1)) :=
    (List.filter_sublist _).map _
  rw [List.enum_map_fst] at hsub
  exact (List.pairwise_lt_range _).sublist hsub

/-! ## C2: what counts as unprocessed -/

/-- **C2 counterexample.**  In `core_logic/data_handler.py` only a null
(`NaN`) label makes a row unprocessed: a row with label `""` or `" "` is
*not* counted and *not* batched, and a null justification alone does not
make a row unprocessed either — each of these should be unprocessed per the
claim. -/
theorem C2_counterexample :
    get_unprocessed_data_count [⟨"t".data, some [], some "x".data⟩] = 0 ∧
    get_data_batches 10 [⟨"t".data, some [], some "x".data⟩] = [] ∧
    get_unprocessed_data_count [⟨"t".data, some " ".data, some "x".data⟩] = 0 ∧
    get_unprocessed_data_count [⟨"t".data, some "POSITIF".data, none⟩] = 0 := by
  exact ⟨by decide, by decide, by decide, by decide⟩

/-- **C2 (amended).**  A row is unprocessed iff its `label` cell is null:
the rows `get_data_batches` selects (in order, across all batches) are
exactly the `full_text` values of the null-label rows, and
`get_unprocessed_data_count` counts exactly those rows.  Empty or
whitespace-only labels count as processed and the justification column is
never consulted. -/
theorem C2_unprocessed_iff (df : List Row) (bs : Nat) (hbs : 0 < bs) :
    (get_data_batches bs df).flatten =
      (df.filter fun r => r.label.isNone).map (fun r => r.full_text) ∧
    get_unprocessed_data_count df = ((get_data_batches bs df).flatten).length := by
  have hj : (get_data_batches bs df).flatten =
      (df.filter fun r => r.label.isNone).map (fun r => r.full_text) :=
    chunked_join bs hbs _
  exact ⟨hj, by rw [hj, List.length_map, get_unprocessed_data_count]⟩

/-- Witness for C2 (amended) on a two-row frame. -/
theorem C2_witness :
    (get_data_batches 1 [⟨"a".data, none, none⟩, ⟨"b".data, some "L".data, some "J".data⟩]).flatten =
      ["a".data] ∧
    get_unprocessed_data_count
        [⟨"a".data, none, none⟩, ⟨"b".data, some "L".data, some "J".data⟩] = 1 := by
  have h := C2_unprocessed_iff
    [⟨"a".data, none, none⟩, ⟨"b".data, some "L".data, some "J".data⟩] 1 (by decide)
  refine ⟨by rw [h.1]; decide, by rw [h.2, h.1]; decide⟩

/-! ## C10: out-of-range offsets are tolerated -/

theorem modifyAt_length (f : α → α) : ∀ (l : List α) (i : Nat),
    (modifyAt i f l).length = l.length
  | [], i => by cases i <;> rfl
  | x :: xs, 0 => rfl
  | x :: xs, j + 1 => by simp [modifyAt, modifyAt_length f xs j]

theorem foldl_applyOne_length : ∀ (ps : List (LabeledRow × Nat)) (df : List Row),
    (ps.foldl applyOne df).length = df.length
  | [], _ => rfl
  | p :: ps, df => by
    rw [List.foldl_cons, foldl_applyOne_length ps, applyOne, modifyAt_length]

theorem zip_take_length : ∀ (l₁ : List α) (l₂ : List β),
    (l₁.take l₂.length).zip l₂ = l₁.zip l₂
  | [], _ => by simp
  | _ :: _, [] => by simp
  | a :: as, b :: bs => by
    simp only [List.length_cons, List.take_succ_cons, List.zip_cons_cons]
    rw [zip_take_length as bs]

/-- **C10.**  When `start_index + len(results)` overshoots the unprocessed
count, `update_and_save_data` writes only the results that map onto
existing snapshot positions, silently drops the excess, keeps the frame
length unchanged, and still persists (the returned frame *is* the persisted
state). -/
theorem C10_overflow_tolerated (df : List Row) (results : List LabeledRow)
    (start : Nat)
    (h : get_unprocessed_data_count df < start + results.length) :
    update_and_save_data results start df =
      update_and_save_data
        (results.take (get_unprocessed_data_count df - start)) start df ∧
    (update_and_save_data results start df).length = df.length := by
  constructor
  · have hlen : ((unprocessedIndices df).drop start).length =
        get_unprocessed_data_count df - start := by
      rw [List.length_drop, unprocessedIndices_length]
    rw [update_and_save_data, update_and_save_data]
    have h1 : ((unprocessedIndices df).drop start).take results.length =
        (unprocessedIndices df).drop start :=
      List.take_of_length_le (by omega)
    have h2 : ((unprocessedIndices df).drop start).take
        (results.take (get_unprocessed_data_count df - start)).length =
        (unprocessedIndices df).drop start :=
      List.take_of_length_le (by rw [List.length_take]; omega)
    rw [h1, h2, ← zip_take_length results ((unprocessedIndices df).drop start), hlen]
  · rw [update_and_save_data, foldl_applyOne_length]

/-- Witness for C10: three results against two unprocessed rows. -/
theorem C10_witness :
    update_and_save_data
        [⟨"POSITIF".data, "alpha".data⟩, ⟨"POSITIF".data, "bravo".data⟩,
          ⟨"POSITIF".data, "extra".data⟩] 0 df2 =
      update_and_save_data
        ([⟨"POSITIF".data, "alpha".data⟩, ⟨"POSITIF".data, "bravo".data⟩,
          ⟨"POSITIF".data, "extra".data⟩].take
          (get_unprocessed_data_count df2 - 0)) 0 df2 ∧
    (update_and_save_data
        [⟨"POSITIF".data, "alpha".data⟩, ⟨"POSITIF".data, "bravo".data⟩,
          ⟨"POSITIF".data, "extra".data⟩] 0 df2).length = df2.length :=
  C10_overflow_tolerated df2
    [⟨"POSITIF".data, "alpha".data⟩, ⟨"POSITIF".data, "bravo".data⟩,
      ⟨"POSITIF".data, "extra".data⟩] 0 (by decide)

/-! ## Row-conservation lemmas -/

theorem modifyAt_get?_ne (f : α → α) : ∀ (l : List α) (i j : Nat), i ≠ j →
    (modifyAt i f l).get? j = l.get? j
  | [], i, _, _ => by cases i <;> rfl
  | _ :: _, 0, 0, h => absurd rfl h
  | _ :: _, 0, _ + 1, _ => rfl
  | _ :: _, _ + 1, 0, _ => rfl
  | x :: xs, i + 1, j + 1, h => by
    simpa [modifyAt] using modifyAt_get?_ne f xs i j (by omega)

theorem countP_modifyAt_flip (p : α → Bool) (f : α → α) :
    ∀ (l : List α) (i : Nat) (x : α), l.get? i = some x → p x = true →
      p (f x) = false → (modifyAt i f l).countP p + 1 = l.countP p
  | [], i, _, h, _, _ => by cases i <;> exact Option.noConfusion h
  | x' :: xs, 0, x, h, hp, hpf => by
    injection h with h
    subst h
    simp [modifyAt, List.countP_cons, hp, hpf]
  | x' :: xs, i + 1, x, h, hp, hpf => by
    have := countP_modifyAt_flip p f xs i x (by simpa using h) hp hpf
    simp [modifyAt, List.countP_cons]
    omega

theorem map_snd_zip_sublist :
    ∀ (l₁ : List α) (l₂ : List β), ((l₁.zip l₂).map Prod.snd).Sublist l₂
  | [], _ => by simp
  | _ :: _, [] => by simp
  | a :: as, b :: bs => by
    simpa [List.zip_cons_cons] using (map_snd_zip_sublist as bs).cons₂ b

theorem countP_foldl_applyOne :
    ∀ (ps : List (LabeledRow × Nat)) (df : List Row),
      (∀ q ∈ ps, ∃ r, df.get? q.2 = some r ∧ r.label = none) →
      (ps.map Prod.snd).Pairwise (· ≠ ·) →
      (ps.foldl applyOne df).countP (fun r => r.label.isNone) + ps.length =
        df.countP (fun r => r.label.isNone)
  | [], df, _, _ => by simp
  | p :: ps, df, hmem, hpw => by
    obtain ⟨r, hg, hr⟩ := hmem p (List.mem_cons_self _ _)
    rw [List.map_cons, List.pairwise_cons] at hpw
    obtain ⟨hhead, htail⟩ := hpw
    have hflip := countP_modifyAt_flip (fun r : Row => r.label.isNone)
      (fun r : Row => { r with label := some p.1.label, justification := some p.1.justification })
      df p.2 r hg (by simp [hr]) (by simp)
    have hmem' : ∀ q ∈ ps, ∃ r',
        (applyOne df p).get? q.2 = some r' ∧ r'.label = none := by
      intro q hq
      obtain ⟨r', hg', hr'⟩ := hmem q (List.mem_cons_of_mem _ hq)
      refine ⟨r', ?_, hr'⟩
      rw [applyOne, modifyAt_get?_ne _ _ _ _ (hhead q.2 (List.mem_map_of_mem _ hq))]
      exact hg'
    have IH := countP_foldl_applyOne ps (applyOne df p) hmem' htail
    rw [List.foldl_cons, List.length_cons]
    simp only [applyOne] at IH ⊢
    omega

/-- One `update_and_save_data` call converts exactly `writeCount` rows from
unprocessed to processed and touches nothing else. -/
theorem update_conservation (results : List LabeledRow) (start : Nat)
    (df : List Row) :
    get_unprocessed_data_count (update_and_save_data results start df) +
      writeCount results start df = get_unprocessed_data_count df := by
  have hcnt : ∀ l : List Row,
      get_unprocessed_data_count l = l.countP fun r => r.label.isNone :=
    fun l => (List.countP_eq_length_filter _ _).symm
  have hsub : (((unprocessedIndices df).drop start).take results.length).Sublist
      (unprocessedIndices df) :=
    (List.take_sublist _ _).trans (List.drop_sublist _ _)
  have hmem : ∀ q ∈ results.zip
      (((unprocessedIndices df).drop start).take results.length),
      ∃ r, df.get? q.2 = some r ∧ r.label = none := by
    intro q hq
    exact mem_unprocessedIndices df q.2 (hsub.subset (List.of_mem_zip hq).2)
  have hpw : ((results.zip
      (((unprocessedIndices df).drop start).take results.length)).map
      Prod.snd).Pairwise (· ≠ ·) := by
    have h1 : (unprocessedIndices df).Pairwise (· ≠ ·) :=
      (unprocessedIndices_pairwise df).imp Nat.ne_of_lt
    exact h1.sublist ((map_snd_zip_sublist _ _).trans hsub)
  rw [hcnt, hcnt, update_and_save_data, writeCount]
  exact countP_foldl_applyOne _ df hmem hpw

theorem runBatches_conservation (allowed : List (List Char))
    (resp : Nat → List (Option (List Char))) :
    ∀ (batches : List (List (List Char))) (i : Nat) (st : RunState),
      get_unprocessed_data_count (runBatches allowed resp batches i st).df +
        (runBatches allowed resp batches i st).written =
      get_unprocessed_data_count st.df + st.written
  | [], _, _ => rfl
  | b :: bs, i, st => by
    rw [runBatches,
      runBatches_conservation allowed resp bs (i + 1) (processBatch allowed (resp i) b st)]
    cases hfv : firstValid ((resp i).take MAX_RETRIES) b.length allowed with
    | none => simp [processBatch, hfv]
    | some rows =>
      simp only [processBatch, hfv]
      have := update_conservation rows st.total_processed_rows st.df
      omega

/-! ## C3: the conservation claim -/

/-- **C3 counterexample.**  Two runs violate `processed + failed +
still_unprocessed = unprocessed_at_start`.  First: a single batch of two
rows fails all `MAX_RETRIES` attempts — its rows are counted as failed *and*
remain unprocessed (`0 + 2 + 2 ≠ 2`).  Second: both batches of a four-row
run validate, but the second batch's results are written nowhere (the
cumulative offset is applied to the *recomputed* unprocessed snapshot), so
the processed counter double-counts (`4 + 0 + 2 ≠ 4`). -/
theorem C3_counterexample :
    ((runMain df2 2 ["POSITIF".data] fun _ =>
        [badResp, badResp, badResp]).total_processed_rows +
      (runMain df2 2 ["POSITIF".data] fun _ =>
        [badResp, badResp, badResp]).total_failed_rows +
      get_unprocessed_data_count
        (runMain df2 2 ["POSITIF".data] fun _ =>
          [badResp, badResp, badResp]).df ≠
      get_unprocessed_data_count df2) ∧
    ((runMain df4 2 ["POSITIF".data] fun _ => [goodResp]).total_processed_rows +
      (runMain df4 2 ["POSITIF".data] fun _ => [goodResp]).total_failed_rows +
      get_unprocessed_data_count
        (runMain df4 2 ["POSITIF".data] fun _ => [goodResp]).df ≠
      get_unprocessed_data_count df4) := by
  exact ⟨by decide, by decide⟩

/-- **C3 (amended).**  What is conserved across every full run is: rows
actually written by `update_and_save_data` plus rows still unprocessed at
run end equals rows unprocessed at run start.  Permanently-failed rows are
not a disjoint third class (they normally stay unprocessed), and the
cumulative `total_processed_rows` counter can exceed the rows actually
written. -/
theorem C3_conservation (df0 : List Row) (batch_size : Nat)
    (allowed : List (List Char)) (resp : Nat → List (Option (List Char))) :
    (runMain df0 batch_size allowed resp).written +
      get_unprocessed_data_count (runMain df0 batch_size allowed resp).df =
    get_unprocessed_data_count df0 := by
  have h := runBatches_conservation allowed resp
    (get_data_batches batch_size df0) 0 (initState df0)
  rw [runMain]
  simp only [initState] at h ⊢
  omega

/-! ## C1: batch results land on the wrong rows -/

/-- **C1.**  Failing run for the alignment claim: four unprocessed rows,
batch size two, every attempt of both batches validates.  Batch 1 is
written correctly, but batch 2 (the results for `t2`, `t3`) is applied at
cumulative offset 2 into the *recomputed* unprocessed snapshot — which now
has only two entries — so the slice is empty: its two results are written
to no row at all, rows 2 and 3 keep null labels, while
`total_processed_rows` still advances to 4.  The claim requires the k-th
result of batch 2 to be written to the row holding its k-th text. -/
theorem C1_misalignment :
    (runMain df4 2 ["POSITIF".data] fun _ => [goodResp]).total_processed_rows = 4 ∧
    (runMain df4 2 ["POSITIF".data] fun _ => [goodResp]).written = 2 ∧
    (runMain df4 2 ["POSITIF".data] fun _ => [goodResp]).df =
      [⟨"t0".data, some "POSITIF".data, some "alpha".data⟩,
       ⟨"t1".data, some "POSITIF".data, some "bravo".data⟩,
       ⟨"t2".data, none, none⟩, ⟨"t3".data, none, none⟩] := by
  exact ⟨by decide, by decide, by decide⟩

/-! ## C7: retry exhaustion -/

theorem firstValid_none (allowed : List (List Char)) (expected : Nat) :
    ∀ (attempts : List (Option (List Char))),
      (∀ a ∈ attempts, (parse_and_validate a expected allowed).isRejected = true) →
      firstValid attempts expected allowed = none
  | [], _ => rfl
  | a :: rest, h => by
    rw [firstValid]
    cases hv : parse_and_validate a expected allowed with
    | Accepted rows =>
      have ha := h a (List.mem_cons_self _ _)
      rw [hv] at ha
      exact absurd ha (by simp [ValidationResult.isRejected])
    | Rejected r =>
      exact firstValid_none allowed expected rest
        fun a' ha' => h a' (List.mem_cons_of_mem _ ha')

/-- **C7 (amended).**  When every one of the `MAX_RETRIES` attempts for a
batch is rejected, every row of the batch is appended to the failed-row
ledger with the reason `"Failed validation after 3 attempts."`, the failed
counter advances by the batch size, and `update_and_save_data` is not
called for the batch: the dataset and the processed counter are unchanged
by its handling.  (The claim's further promise that these rows *remain*
unprocessed at run end does not hold — see the counterexample — because a
later accepted batch, applied at the cumulative-processed offset, can write
its results into them.) -/
theorem C7_retry_exhaustion (allowed : List (List Char))
    (attempts : List (Option (List Char))) (batch : List (List Char))
    (st : RunState)
    (hrej : ∀ a ∈ attempts.take MAX_RETRIES,
      (parse_and_validate a batch.length allowed).isRejected = true) :
    (processBatch allowed attempts batch st).df = st.df ∧
    (processBatch allowed attempts batch st).ledger =
      st.ledger ++ batch.map mkFailedRow ∧
    (processBatch allowed attempts batch st).total_failed_rows =
      st.total_failed_rows + batch.length ∧
    (processBatch allowed attempts batch st).total_processed_rows =
      st.total_processed_rows := by
  have h := firstValid_none allowed batch.length (attempts.take MAX_RETRIES) hrej
  refine ⟨?_, ?_, ?_, ?_⟩ <;> simp [processBatch, h]

/-- Witness for C7 (amended) on a concrete exhausted batch. -/
theorem C7_witness :
    (processBatch ["POSITIF".data] [badResp, badResp, badResp]
        ["t0".data, "t1".data] (initState df2)).ledger =
      [mkFailedRow "t0".data, mkFailedRow "t1".data] ∧
    (processBatch ["POSITIF".data] [badResp, badResp, badResp]
        ["t0".data, "t1".data] (initState df2)).df = df2 := by
  have h := C7_retry_exhaustion ["POSITIF".data] [badResp, badResp, badResp]
    ["t0".data, "t1".data] (initState df2) (by decide)
  exact ⟨by rw [h.2.1]; decide, by rw [h.1]; decide⟩

/-- **C7 counterexample.**  Batch 1 (rows `t0`, `t1`) exhausts its retries:
both rows are ledgered and `update_and_save_data` is never called for that
batch.  But the claim's conclusion "so its rows remain unprocessed in the
dataset" is false: the next accepted batch (results for `t2`, `t3`) is
applied at cumulative offset 0 over the recomputed unprocessed snapshot and
writes its labels into rows 0 and 1 — the failed batch's rows. -/
theorem C7_counterexample :
    (runMain df4 2 ["POSITIF".data] respMixed).ledger =
      [mkFailedRow "t0".data, mkFailedRow "t1".data] ∧
    (runMain df4 2 ["POSITIF".data] respMixed).df.get? 0 =
      some ⟨"t0".data, some "POSITIF".data, some "alpha".data⟩ ∧
    (runMain df4 2 ["POSITIF".data] respMixed).df.get? 1 =
      some ⟨"t1".data, some "POSITIF".data, some "bravo".data⟩ := by
  exact ⟨by decide, by decide, by decide⟩

/-! ## C8: finalization -/

theorem loopEvents_count_eq_zero (allowed : List (List Char))
    (resp : Nat → List (Option (List Char))) (e : Event)
    (h1 : e ≠ .batchApplied) (h2 : e ≠ .batchFailed) :
    ∀ (batches : List (List (List Char))) (i : Nat),
      (loopEvents allowed resp batches i).count e = 0
  | [], _ => rfl
  | b :: bs, i => by
    rw [loopEvents, List.count_cons,
      loopEvents_count_eq_zero allowed resp e h1 h2 bs (i + 1)]
    cases hv : (firstValid ((resp i).take MAX_RETRIES) b.length allowed).isSome <;>
      simp [beq_iff_eq, h1.symm, h2.symm]

/-- **C8 counterexample.**  A run that completes normally (no interrupt)
with its only batch failing validation flushes the ledger exactly once but
never persists the final snapshot: `save_final_results` is guarded by
`total_processed_rows > 0` in the `finally` block, while the claim requires
the snapshot step on every exit path. -/
theorem C8_counterexample :
    (mainTrace df2 2 ["POSITIF".data]
        (fun _ => [badResp, badResp, badResp]) none).count .finalSave = 0 ∧
    (mainTrace df2 2 ["POSITIF".data]
        (fun _ => [badResp, badResp, badResp]) none).count .ledgerFlush = 1 := by
  exact ⟨by decide, by decide⟩

/-- **C8 (amended).**  On every exit path — normal completion or an
external interrupt at any batch boundary — the `finally` block closes the
client session exactly once and flushes the failed-row ledger exactly once,
but persists the final snapshot exactly once *only when* the processed
counter is positive; when no rows were processed the snapshot step is
skipped. -/
theorem C8_finalization (df0 : List Row) (batch_size : Nat)
    (allowed : List (List Char)) (resp : Nat → List (Option (List Char)))
    (interrupt : Option Nat) :
    (mainTrace df0 batch_size allowed resp interrupt).count .closeSession = 1 ∧
    (mainTrace df0 batch_size allowed resp interrupt).count .ledgerFlush = 1 ∧
    (mainTrace df0 batch_size allowed resp interrupt).count .finalSave =
      (if 0 < (stateAtExit df0 batch_size allowed resp interrupt).total_processed_rows
        then 1 else 0) := by
  have hloop := fun e h1 h2 => loopEvents_count_eq_zero allowed resp e h1 h2
    (executedBatches df0 batch_size interrupt) 0
  refine ⟨?_, ?_, ?_⟩ <;>
    rw [mainTrace, List.count_append, hloop _ (by simp) (by simp)] <;>
    by_cases hp :
      0 < (stateAtExit df0 batch_size allowed resp interrupt).total_processed_rows <;>
    simp [hp, List.count_cons]

end Labeling
